import Mathlib

/-!
Verification model of the TikIQ proxy (src/main.py).

The module embeds the source-selection and fallback cascade of the three
JSON endpoints, together with the cache TTL constants, the outbound-call
timeout constants, and the route table. Outbound network and library
calls are modelled by an environment that records the outcome each call
would produce for the request at hand; every endpoint returns the
HTTP-level response together with the ordered list of providers whose
calls were actually made during the request.
-/

namespace TikIQ

/-- Opaque provider payload: the JSON body a provider call returns. -/
abbrev Payload := String

/-- Exceptions a provider call can raise: a RuntimeError carrying a
message, an HTTP status error raised by raise_for_status, or an httpx
timeout. -/
inductive Err where
  | runtimeError (msg : String)
  | httpStatusError (status : Nat)
  | timeout
  deriving DecidableEq, Repr

/-- Model of the Python str(e) used when the endpoint formats an
HTTPException detail from a caught exception. For a RuntimeError this is
its message, as in the source. -/
def Err.str : Err → String
  | .runtimeError msg => msg
  | .httpStatusError s => "HTTP status error " ++ toString s
  | .timeout => "timeout"

/-- Process-wide configuration read from the environment at startup
(lines 14-17 of main.py). A missing variable is modelled as none. -/
structure Config where
  TIKTOK_CLIENT_KEY : Option String
  TIKTOK_CLIENT_SECRET : Option String
  TIKAPI_KEY : Option String
  USE_UNOFFICIAL : Bool
  deriving DecidableEq, Repr

/-- Python truthiness of an optional environment string: an unset
variable and the empty string are both falsy. -/
def truthy : Option String → Bool
  | none => false
  | some s => !s.isEmpty

/-- The guard TIKTOK_CLIENT_KEY and TIKTOK_CLIENT_SECRET used before
every official call. -/
def Config.officialCreds (cfg : Config) : Bool :=
  truthy cfg.TIKTOK_CLIENT_KEY && truthy cfg.TIKTOK_CLIENT_SECRET

/-- Outcomes of the outbound calls an endpoint could make for the
current request: the official research call, the managed tikapi call,
and the unofficial TikTokApi library flow (whose import failure is one
of its error outcomes). -/
structure Env where
  official : Except Err Payload
  tikapi : Except Err Payload
  unofficial : Except Err Payload
  deriving Repr

/-- Providers, in the order the source consults them. -/
inductive Provider where
  | official
  | managed
  | unofficial
  deriving DecidableEq, Repr

/-- HTTP-level response of an endpoint: a 200 JSONResponse with a
source tag and data, a raised HTTPException with status and detail, or
an exception left uncaught by the endpoint (which the framework turns
into a 500 internal server error). -/
inductive Resp where
  | ok (source : String) (data : Payload)
  | httpError (status : Nat) (detail : String)
  | unhandled (e : Err)
  deriving DecidableEq, Repr

/-- HTTP status code of a response. -/
def statusOf : Resp → Nat
  | .ok _ _ => 200
  | .httpError s _ => s
  | .unhandled _ => 500

/-- call_tiktok_research (main.py lines 26-42): raises RuntimeError when
the developer credentials are missing, otherwise performs the outbound
GET whose outcome (raise_for_status and json() included) the
environment supplies. -/
def call_tiktok_research (cfg : Config) (outcome : Except Err Payload) :
    Except Err Payload :=
  if cfg.officialCreds then outcome
  else .error (.runtimeError "TikTok developer credentials not configured.")

/-- fallback_get_user (main.py lines 45-71): prefers the managed tikapi
call when TIKAPI_KEY is set (any exception it raises propagates), else
the unofficial library when USE_UNOFFICIAL is set, else raises
RuntimeError. The second component lists the providers whose calls were
made. -/
def fallback_get_user (cfg : Config) (env : Env) :
    Except Err Payload × List Provider :=
  if truthy cfg.TIKAPI_KEY then
    (env.tikapi, [Provider.managed])
  else if cfg.USE_UNOFFICIAL then
    (env.unofficial, [Provider.unofficial])
  else
    (.error (.runtimeError "No available TikTok data source configured."), [])

/-- Fallback section of api_search_user (main.py lines 98-102): call
fallback_get_user; on success answer source fallback, on any exception
raise HTTPException 500 with the formatted detail. -/
def search_user_fallback_resp (cfg : Config) (env : Env) :
    Resp × List Provider :=
  match fallback_get_user cfg env with
  | (.ok data, tr) => (.ok "fallback" data, tr)
  | (.error e, tr) =>
      (.httpError 500 ("Failed to fetch user: " ++ e.str), tr)

/-- api_search_user (main.py lines 79-102): try the official research
call when credentials are configured, swallowing any exception, then
run the fallback section. -/
def api_search_user (cfg : Config) (env : Env) : Resp × List Provider :=
  if cfg.officialCreds then
    match call_tiktok_research cfg env.official with
    | .ok data => (.ok "official" data, [Provider.official])
    | .error _ =>
        let r := search_user_fallback_resp cfg env
        (r.1, Provider.official :: r.2)
  else
    search_user_fallback_resp cfg env

/-- Fallback section of api_video_stats (main.py lines 117-134): a
managed tikapi call whose exceptions are not caught, then the unofficial
library with exceptions caught and printed, then HTTPException 500. -/
def video_stats_fallback_resp (cfg : Config) (env : Env) :
    Resp × List Provider :=
  if truthy cfg.TIKAPI_KEY then
    match env.tikapi with
    | .ok data => (.ok "tikapi" data, [Provider.managed])
    | .error e => (.unhandled e, [Provider.managed])
  else if cfg.USE_UNOFFICIAL then
    match env.unofficial with
    | .ok data => (.ok "unofficial" data, [Provider.unofficial])
    | .error _ =>
        (.httpError 500 "No data source available for video stats.",
         [Provider.unofficial])
  else
    (.httpError 500 "No data source available for video stats.", [])

/-- api_video_stats (main.py lines 104-134): official attempt with
exceptions swallowed, then the fallback section. -/
def api_video_stats (cfg : Config) (env : Env) : Resp × List Provider :=
  if cfg.officialCreds then
    match call_tiktok_research cfg env.official with
    | .ok data => (.ok "official" data, [Provider.official])
    | .error _ =>
        let r := video_stats_fallback_resp cfg env
        (r.1, Provider.official :: r.2)
  else
    video_stats_fallback_resp cfg env

/-- Fallback section of trending_hashtags (main.py lines 149-157): a
managed tikapi call whose exceptions are not caught, else HTTPException
503; the unofficial library is never consulted here. -/
def hashtags_fallback_resp (cfg : Config) (env : Env) :
    Resp × List Provider :=
  if truthy cfg.TIKAPI_KEY then
    match env.tikapi with
    | .ok data => (.ok "tikapi" data, [Provider.managed])
    | .error e => (.unhandled e, [Provider.managed])
  else
    (.httpError 503
      "Trending hashtags service unavailable. Configure API keys or enable fallback.",
     [])

/-- trending_hashtags (main.py lines 136-157): official attempt with
exceptions swallowed, then the fallback section. -/
def trending_hashtags (cfg : Config) (env : Env) : Resp × List Provider :=
  if cfg.officialCreds then
    match call_tiktok_research cfg env.official with
    | .ok data => (.ok "official" data, [Provider.official])
    | .error _ =>
        let r := hashtags_fallback_resp cfg env
        (r.1, Provider.official :: r.2)
  else
    hashtags_fallback_resp cfg env

/-- CACHE_TTL (main.py line 23). -/
def CACHE_TTL : Nat := 60

/-- TTL of the cached decorator on api_search_user (line 80). -/
def search_user_ttl : Nat := CACHE_TTL

/-- TTL of the cached decorator on api_video_stats (line 105). -/
def video_stats_ttl : Nat := CACHE_TTL

/-- TTL of the cached decorator on trending_hashtags (line 137). -/
def trending_hashtags_ttl : Nat := 120

/-- Timeout of the httpx client in call_tiktok_research (line 39). -/
def research_call_timeout : Nat := 20

/-- Timeout of the managed tikapi call in fallback_get_user (line 51). -/
def fallback_user_managed_timeout : Nat := 20

/-- Timeout of the managed tikapi call in api_video_stats (line 122). -/
def video_stats_managed_timeout : Nat := 20

/-- Timeout of the managed tikapi call in trending_hashtags (line 153). -/
def hashtags_managed_timeout : Nat := 20

/-- The route table of the FastAPI app: every route decorator in
main.py, as (method, path). -/
def routes : List (String × String) :=
  [("GET", "/"),
   ("GET", "/api/search_user"),
   ("GET", "/api/video_stats"),
   ("GET", "/api/trending_hashtags"),
   ("GET", "/health")]

/-- The same configuration with the official client key removed, so the
official guard is false; used to express that a swallowed official
failure leaves the response exactly as if the official provider were
unconfigured. -/
def stripOfficial (cfg : Config) : Config :=
  { cfg with TIKTOK_CLIENT_KEY := none }

/-- Configuration with no provider at all. -/
def noProviderCfg : Config :=
  { TIKTOK_CLIENT_KEY := none, TIKTOK_CLIENT_SECRET := none,
    TIKAPI_KEY := none, USE_UNOFFICIAL := false }

/-- Configuration with only the managed tikapi key. -/
def managedOnlyCfg : Config :=
  { TIKTOK_CLIENT_KEY := none, TIKTOK_CLIENT_SECRET := none,
    TIKAPI_KEY := some "k", USE_UNOFFICIAL := false }

/-- Configuration with only the unofficial opt-in flag. -/
def unofficialOnlyCfg : Config :=
  { TIKTOK_CLIENT_KEY := none, TIKTOK_CLIENT_SECRET := none,
    TIKAPI_KEY := none, USE_UNOFFICIAL := true }

/-- Configuration with the managed key and the unofficial flag. -/
def managedAndUnofficialCfg : Config :=
  { TIKTOK_CLIENT_KEY := none, TIKTOK_CLIENT_SECRET := none,
    TIKAPI_KEY := some "k", USE_UNOFFICIAL := true }

/-- Configuration with official credentials and the managed key. -/
def officialAndManagedCfg : Config :=
  { TIKTOK_CLIENT_KEY := some "ck", TIKTOK_CLIENT_SECRET := some "cs",
    TIKAPI_KEY := some "k", USE_UNOFFICIAL := false }

/-- Environment in which every call would fail with a timeout. -/
def envAllFail : Env :=
  { official := .error .timeout, tikapi := .error .timeout,
    unofficial := .error .timeout }

/-- Environment in which the managed and unofficial calls would
succeed while the official call would time out. -/
def envManagedOk : Env :=
  { official := .error .timeout, tikapi := .ok "mdata",
    unofficial := .ok "udata" }

/-- Environment in which the official and managed calls would time out
while the unofficial call would succeed. -/
def envManagedTimeout : Env :=
  { official := .error .timeout, tikapi := .error .timeout,
    unofficial := .ok "udata" }

/- Helper lemmas on the cascade shape, shared by the claim theorems. -/

theorem officialCreds_strip (cfg : Config) :
    (stripOfficial cfg).officialCreds = false := by
  simp [stripOfficial, Config.officialCreds, truthy]

theorem strip_fallback_get_user (cfg : Config) (env : Env) :
    fallback_get_user (stripOfficial cfg) env = fallback_get_user cfg env := by
  cases cfg
  rfl

theorem strip_search_fallback (cfg : Config) (env : Env) :
    search_user_fallback_resp (stripOfficial cfg) env =
      search_user_fallback_resp cfg env := by
  simp [search_user_fallback_resp, strip_fallback_get_user]

theorem strip_video_fallback (cfg : Config) (env : Env) :
    video_stats_fallback_resp (stripOfficial cfg) env =
      video_stats_fallback_resp cfg env := by
  cases cfg
  rfl

theorem strip_hashtags_fallback (cfg : Config) (env : Env) :
    hashtags_fallback_resp (stripOfficial cfg) env =
      hashtags_fallback_resp cfg env := by
  cases cfg
  rfl

theorem search_reduce_nocreds (cfg : Config) (env : Env)
    (h : cfg.officialCreds = false) :
    api_search_user cfg env = search_user_fallback_resp cfg env := by
  simp [api_search_user, h]

theorem video_reduce_nocreds (cfg : Config) (env : Env)
    (h : cfg.officialCreds = false) :
    api_video_stats cfg env = video_stats_fallback_resp cfg env := by
  simp [api_video_stats, h]

theorem hashtags_reduce_nocreds (cfg : Config) (env : Env)
    (h : cfg.officialCreds = false) :
    trending_hashtags cfg env = hashtags_fallback_resp cfg env := by
  simp [trending_hashtags, h]

theorem search_reduce_fail (cfg : Config) (env : Env) (e : Err)
    (h1 : cfg.officialCreds = true) (h2 : env.official = .error e) :
    api_search_user cfg env =
      ((search_user_fallback_resp cfg env).1,
       Provider.official :: (search_user_fallback_resp cfg env).2) := by
  simp [api_search_user, call_tiktok_research, h1, h2]

theorem video_reduce_fail (cfg : Config) (env : Env) (e : Err)
    (h1 : cfg.officialCreds = true) (h2 : env.official = .error e) :
    api_video_stats cfg env =
      ((video_stats_fallback_resp cfg env).1,
       Provider.official :: (video_stats_fallback_resp cfg env).2) := by
  simp [api_video_stats, call_tiktok_research, h1, h2]

theorem hashtags_reduce_fail (cfg : Config) (env : Env) (e : Err)
    (h1 : cfg.officialCreds = true) (h2 : env.official = .error e) :
    trending_hashtags cfg env =
      ((hashtags_fallback_resp cfg env).1,
       Provider.official :: (hashtags_fallback_resp cfg env).2) := by
  simp [trending_hashtags, call_tiktok_research, h1, h2]

theorem search_reduce_ok (cfg : Config) (env : Env) (d : Payload)
    (h1 : cfg.officialCreds = true) (h2 : env.official = .ok d) :
    api_search_user cfg env = (.ok "official" d, [Provider.official]) := by
  simp [api_search_user, call_tiktok_research, h1, h2]

theorem video_reduce_ok (cfg : Config) (env : Env) (d : Payload)
    (h1 : cfg.officialCreds = true) (h2 : env.official = .ok d) :
    api_video_stats cfg env = (.ok "official" d, [Provider.official]) := by
  simp [api_video_stats, call_tiktok_research, h1, h2]

theorem hashtags_reduce_ok (cfg : Config) (env : Env) (d : Payload)
    (h1 : cfg.officialCreds = true) (h2 : env.official = .ok d) :
    trending_hashtags cfg env = (.ok "official" d, [Provider.official]) := by
  simp [trending_hashtags, call_tiktok_research, h1, h2]

theorem search_fallback_managed (cfg : Config) (env : Env)
    (h : truthy cfg.TIKAPI_KEY = true) :
    search_user_fallback_resp cfg env =
      (match env.tikapi with
       | .ok d => (.ok "fallback" d, [Provider.managed])
       | .error e =>
          (.httpError 500 ("Failed to fetch user: " ++ e.str),
           [Provider.managed])) := by
  cases henv : env.tikapi <;>
    simp [search_user_fallback_resp, fallback_get_user, h, henv]

/-- Claim C1, counterexample: with no provider configured, search_user
does not answer HTTP 200 with a fallback payload carrying an error
marker; it raises HTTPException 500 with a formatted detail, so its
status is 500, not 200. -/
theorem claim_C1_counterexample :
    (api_search_user noProviderCfg envAllFail).1 =
      .httpError 500
        "Failed to fetch user: No available TikTok data source configured."
    ∧ statusOf (api_search_user noProviderCfg envAllFail).1 ≠ 200 := by
  constructor
  · rfl
  · decide

/-- Claim C1, amended: for every query where no provider is configured,
search_user raises HTTPException 500 with detail mentioning the missing
data source (not HTTP 200 with a fallback body), while video_stats
answers 500 and trending_hashtags answers 503. -/
theorem claim_C1_no_provider (cfg : Config) (env : Env)
    (h1 : cfg.officialCreds = false)
    (h2 : truthy cfg.TIKAPI_KEY = false)
    (h3 : cfg.USE_UNOFFICIAL = false) :
    (api_search_user cfg env).1 =
      .httpError 500
        "Failed to fetch user: No available TikTok data source configured."
    ∧ (api_video_stats cfg env).1 =
      .httpError 500 "No data source available for video stats."
    ∧ (trending_hashtags cfg env).1 =
      .httpError 503
        "Trending hashtags service unavailable. Configure API keys or enable fallback."
    ∧ statusOf (api_search_user cfg env).1 = 500
    ∧ statusOf (api_video_stats cfg env).1 = 500
    ∧ statusOf (trending_hashtags cfg env).1 = 503 := by
  rw [search_reduce_nocreds cfg env h1, video_reduce_nocreds cfg env h1,
      hashtags_reduce_nocreds cfg env h1]
  simp [search_user_fallback_resp, video_stats_fallback_resp,
        hashtags_fallback_resp, fallback_get_user, h2, h3, statusOf, Err.str]

/-- Claim C1, witness: the amended statement evaluated at the concrete
no-provider configuration. -/
theorem claim_C1_no_provider_witness :
    noProviderCfg.officialCreds = false
    ∧ truthy noProviderCfg.TIKAPI_KEY = false
    ∧ noProviderCfg.USE_UNOFFICIAL = false
    ∧ (api_search_user noProviderCfg envAllFail).1 =
      .httpError 500
        "Failed to fetch user: No available TikTok data source configured." :=
  ⟨by decide, by decide, by decide,
   (claim_C1_no_provider noProviderCfg envAllFail (by decide) (by decide)
      (by decide)).1⟩

/-- Claim C2, counterexample: with only the managed key configured and a
successful managed call, search_user tags the response source as
fallback, not as tikapi. -/
theorem claim_C2_counterexample :
    (api_search_user managedOnlyCfg envManagedOk).1 = .ok "fallback" "mdata"
    ∧ (api_search_user managedOnlyCfg envManagedOk).1 ≠ .ok "tikapi" "mdata" := by
  constructor
  · rfl
  · decide

/-- Claim C2, amended: whenever the official provider is not used
(skipped or failed), the managed key is configured and the managed call
succeeds, video_stats answers with source tikapi while search_user
answers with source fallback; neither answers with source official. -/
theorem claim_C2_managed_source (cfg : Config) (env : Env) (d : Payload)
    (h1 : cfg.officialCreds = false ∨ ∃ e, env.official = .error e)
    (h2 : truthy cfg.TIKAPI_KEY = true)
    (h3 : env.tikapi = .ok d) :
    (api_video_stats cfg env).1 = .ok "tikapi" d
    ∧ (api_search_user cfg env).1 = .ok "fallback" d
    ∧ (∀ p, (api_video_stats cfg env).1 ≠ .ok "official" p)
    ∧ (∀ p, (api_search_user cfg env).1 ≠ .ok "official" p) := by
  have hv : video_stats_fallback_resp cfg env =
      (.ok "tikapi" d, [Provider.managed]) := by
    simp [video_stats_fallback_resp, h2, h3]
  have hs : search_user_fallback_resp cfg env =
      (.ok "fallback" d, [Provider.managed]) := by
    simp [search_user_fallback_resp, fallback_get_user, h2, h3]
  have hmain : (api_video_stats cfg env).1 = .ok "tikapi" d
      ∧ (api_search_user cfg env).1 = .ok "fallback" d := by
    rcases h1 with h1 | ⟨e, he⟩
    · rw [video_reduce_nocreds cfg env h1, search_reduce_nocreds cfg env h1,
          hv, hs]
      exact ⟨rfl, rfl⟩
    · cases hoc : cfg.officialCreds
      · rw [video_reduce_nocreds cfg env hoc, search_reduce_nocreds cfg env hoc,
            hv, hs]
        exact ⟨rfl, rfl⟩
      · rw [video_reduce_fail cfg env e hoc he, search_reduce_fail cfg env e hoc he,
            hv, hs]
        exact ⟨rfl, rfl⟩
  refine ⟨hmain.1, hmain.2, ?_, ?_⟩
  · intro p hcontra
    rw [hmain.1] at hcontra
    exact absurd (Resp.ok.inj hcontra).1 (by decide)
  · intro p hcontra
    rw [hmain.2] at hcontra
    exact absurd (Resp.ok.inj hcontra).1 (by decide)

/-- Claim C2, witness: the amended statement evaluated with only the
managed key configured and a successful managed call. -/
theorem claim_C2_managed_source_witness :
    truthy managedOnlyCfg.TIKAPI_KEY = true
    ∧ envManagedOk.tikapi = .ok "mdata"
    ∧ (api_video_stats managedOnlyCfg envManagedOk).1 = .ok "tikapi" "mdata" :=
  ⟨by decide, rfl,
   (claim_C2_managed_source managedOnlyCfg envManagedOk "mdata"
      (Or.inl (by decide)) (by decide) rfl).1⟩

/-- Claim C4, counterexample: the cache TTL classes are not 30 and 120
seconds with video stats short and user search long; video stats has
TTL 60, and user search also has 60, not 120. -/
theorem claim_C4_counterexample :
    video_stats_ttl ≠ 30 ∧ search_user_ttl ≠ 120 := by decide

/-- Claim C4, amended: cached results have per-endpoint TTLs drawn from
two values, 60 seconds (CACHE_TTL, used for user search and video
stats) and 120 seconds (trending hashtags); the video-stats TTL is
shorter than the hashtag TTL but equal to the user-search TTL. -/
theorem claim_C4_ttl_classes :
    search_user_ttl = 60 ∧ video_stats_ttl = 60
    ∧ trending_hashtags_ttl = 120
    ∧ video_stats_ttl < trending_hashtags_ttl
    ∧ search_user_ttl = CACHE_TTL ∧ video_stats_ttl = CACHE_TTL := by
  decide

/-- Claim C5: a trending_hashtags request with no credentials configured
(no official credentials, no managed key) answers HTTP 503 with a
detail mentioning unavailability. -/
theorem claim_C5_trending_unavailable (cfg : Config) (env : Env)
    (h1 : cfg.officialCreds = false) (h2 : truthy cfg.TIKAPI_KEY = false) :
    statusOf (trending_hashtags cfg env).1 = 503
    ∧ ∃ pre post, (trending_hashtags cfg env).1 =
        .httpError 503 (pre ++ "unavailable" ++ post) := by
  have h : trending_hashtags cfg env =
      (.httpError 503
        "Trending hashtags service unavailable. Configure API keys or enable fallback.",
       []) := by
    rw [hashtags_reduce_nocreds cfg env h1]
    simp [hashtags_fallback_resp, h2]
  refine ⟨by rw [h]; rfl, "Trending hashtags service ",
          ". Configure API keys or enable fallback.", ?_⟩
  rw [h]
  rfl

/-- Claim C5, witness: the statement evaluated at the concrete
no-provider configuration. -/
theorem claim_C5_trending_unavailable_witness :
    noProviderCfg.officialCreds = false
    ∧ truthy noProviderCfg.TIKAPI_KEY = false
    ∧ statusOf (trending_hashtags noProviderCfg envAllFail).1 = 503 :=
  ⟨by decide, by decide,
   (claim_C5_trending_unavailable noProviderCfg envAllFail (by decide)
      (by decide)).1⟩

theorem search_fallback_ignores_official (cfg : Config) (env : Env)
    (o : Except Err Payload) :
    search_user_fallback_resp cfg { env with official := o } =
      search_user_fallback_resp cfg env := rfl

theorem video_fallback_ignores_official (cfg : Config) (env : Env)
    (o : Except Err Payload) :
    video_stats_fallback_resp cfg { env with official := o } =
      video_stats_fallback_resp cfg env := rfl

theorem hashtags_fallback_ignores_official (cfg : Config) (env : Env)
    (o : Except Err Payload) :
    hashtags_fallback_resp cfg { env with official := o } =
      hashtags_fallback_resp cfg env := rfl

theorem official_not_in_fallback_traces (cfg : Config) (env : Env) :
    Provider.official ∉ (search_user_fallback_resp cfg env).2
    ∧ Provider.official ∉ (video_stats_fallback_resp cfg env).2
    ∧ Provider.official ∉ (hashtags_fallback_resp cfg env).2 := by
  cases hk : truthy cfg.TIKAPI_KEY <;> cases hu : cfg.USE_UNOFFICIAL <;>
    cases ht : env.tikapi <;> cases hun : env.unofficial <;>
      simp [search_user_fallback_resp, video_stats_fallback_resp,
            hashtags_fallback_resp, fallback_get_user, hk, hu, ht, hun]

/-- Claim C6: for every query kind, an exception from the official
provider is swallowed: the response is exactly the one produced with
the official provider unconfigured (so no official status or error ever
reaches the caller), the attempt trace merely gains the official
attempt in front, and when the managed key is configured the managed
provider is attempted next. -/
theorem claim_C6_official_swallowed (cfg : Config) (env : Env) (e : Err)
    (h1 : cfg.officialCreds = true) (h2 : env.official = .error e) :
    (api_search_user cfg env).1 = (api_search_user (stripOfficial cfg) env).1
    ∧ (api_video_stats cfg env).1 = (api_video_stats (stripOfficial cfg) env).1
    ∧ (trending_hashtags cfg env).1 = (trending_hashtags (stripOfficial cfg) env).1
    ∧ (api_search_user cfg env).2 =
        Provider.official :: (api_search_user (stripOfficial cfg) env).2
    ∧ (api_video_stats cfg env).2 =
        Provider.official :: (api_video_stats (stripOfficial cfg) env).2
    ∧ (trending_hashtags cfg env).2 =
        Provider.official :: (trending_hashtags (stripOfficial cfg) env).2
    ∧ (truthy cfg.TIKAPI_KEY = true →
        Provider.managed ∈ (api_search_user cfg env).2
        ∧ Provider.managed ∈ (api_video_stats cfg env).2
        ∧ Provider.managed ∈ (trending_hashtags cfg env).2) := by
  rw [search_reduce_fail cfg env e h1 h2, video_reduce_fail cfg env e h1 h2,
      hashtags_reduce_fail cfg env e h1 h2,
      search_reduce_nocreds (stripOfficial cfg) env (officialCreds_strip cfg),
      video_reduce_nocreds (stripOfficial cfg) env (officialCreds_strip cfg),
      hashtags_reduce_nocreds (stripOfficial cfg) env (officialCreds_strip cfg),
      strip_search_fallback, strip_video_fallback, strip_hashtags_fallback]
  refine ⟨rfl, rfl, rfl, rfl, rfl, rfl, fun hk => ?_⟩
  cases htik : env.tikapi <;>
    simp [search_user_fallback_resp, video_stats_fallback_resp,
          hashtags_fallback_resp, fallback_get_user, hk, htik]

/-- Claim C6, witness: the theorem evaluated with official and managed
credentials configured and a timed-out official call. -/
theorem claim_C6_official_swallowed_witness :
    officialAndManagedCfg.officialCreds = true
    ∧ envManagedOk.official = .error .timeout
    ∧ (api_search_user officialAndManagedCfg envManagedOk).1 =
        (api_search_user (stripOfficial officialAndManagedCfg) envManagedOk).1 :=
  ⟨by decide, rfl,
   (claim_C6_official_swallowed officialAndManagedCfg envManagedOk .timeout
      (by decide) rfl).1⟩

/-- Claim C7: for every query kind the official provider is attempted
exactly when both the client key and the client secret are configured
and nonempty; when they are absent the endpoint behaves identically for
every possible official-call outcome (the skip influences nothing, so
it is not a failure), and call_tiktok_research itself raises
RuntimeError on missing credentials. -/
theorem claim_C7_official_gating (cfg : Config) (env : Env) :
    (Provider.official ∈ (api_search_user cfg env).2 ↔ cfg.officialCreds = true)
    ∧ (Provider.official ∈ (api_video_stats cfg env).2 ↔ cfg.officialCreds = true)
    ∧ (Provider.official ∈ (trending_hashtags cfg env).2 ↔ cfg.officialCreds = true)
    ∧ (cfg.officialCreds = false →
        (∀ o, api_search_user cfg { env with official := o } =
            api_search_user cfg env)
        ∧ (∀ o, api_video_stats cfg { env with official := o } =
            api_video_stats cfg env)
        ∧ (∀ o, trending_hashtags cfg { env with official := o } =
            trending_hashtags cfg env)
        ∧ call_tiktok_research cfg env.official =
            .error (.runtimeError "TikTok developer credentials not configured.")) := by
  obtain ⟨hn1, hn2, hn3⟩ := official_not_in_fallback_traces cfg env
  cases hoc : cfg.officialCreds
  · rw [search_reduce_nocreds cfg env hoc, video_reduce_nocreds cfg env hoc,
        hashtags_reduce_nocreds cfg env hoc]
    refine ⟨by simp [hn1], by simp [hn2], by simp [hn3],
            fun _ => ⟨?_, ?_, ?_, ?_⟩⟩
    · intro o
      rw [search_reduce_nocreds cfg { env with official := o } hoc]
      exact search_fallback_ignores_official cfg env o
    · intro o
      rw [video_reduce_nocreds cfg { env with official := o } hoc]
      exact video_fallback_ignores_official cfg env o
    · intro o
      rw [hashtags_reduce_nocreds cfg { env with official := o } hoc]
      exact hashtags_fallback_ignores_official cfg env o
    · simp [call_tiktok_research, hoc]
  · cases ho : env.official with
    | ok d =>
      rw [search_reduce_ok cfg env d hoc ho, video_reduce_ok cfg env d hoc ho,
          hashtags_reduce_ok cfg env d hoc ho]
      exact ⟨by simp, by simp, by simp,
             fun hcontra => absurd hcontra (by decide)⟩
    | error e =>
      rw [search_reduce_fail cfg env e hoc ho, video_reduce_fail cfg env e hoc ho,
          hashtags_reduce_fail cfg env e hoc ho]
      exact ⟨by simp, by simp, by simp,
             fun hcontra => absurd hcontra (by decide)⟩

/-- Claim C7, witness: the gating equivalence evaluated at the concrete
no-provider configuration, where the official provider is never in the
attempt trace. -/
theorem claim_C7_official_gating_witness :
    (Provider.official ∈ (api_search_user noProviderCfg envAllFail).2 ↔
      noProviderCfg.officialCreds = true) :=
  (claim_C7_official_gating noProviderCfg envAllFail).1

/-- Claim C9, counterexample: the route table of the app contains
neither a GET /dashboard/\x7busername\x7d route nor a GET /debug/config
route. -/
theorem claim_C9_counterexample :
    ("GET", "/dashboard/\x7busername\x7d") ∉ routes
    ∧ ("GET", "/debug/config") ∉ routes := by decide

/-- Claim C9, amended: the HTTP surface consists exactly of GET routes
for the index page, search_user, video_stats, trending_hashtags and
health; no dashboard-per-username route and no debug-config route
exist. -/
theorem claim_C9_routes :
    routes = [("GET", "/"), ("GET", "/api/search_user"),
              ("GET", "/api/video_stats"), ("GET", "/api/trending_hashtags"),
              ("GET", "/health")]
    ∧ ("GET", "/dashboard/\x7busername\x7d") ∉ routes
    ∧ ("GET", "/debug/config") ∉ routes :=
  ⟨rfl, by decide, by decide⟩

/-- Claim C10: in the user-lookup fallback, a configured managed key
with a failing managed call makes fallback_get_user propagate that very
exception without consulting the unofficial provider, and search_user
(when the official provider was skipped or failed) answers HTTP 500
with the formatted detail; the unofficial provider is never attempted,
whatever the opt-in flag. -/
theorem claim_C10_managed_failure_propagates (cfg : Config) (env : Env) (e : Err)
    (h1 : truthy cfg.TIKAPI_KEY = true) (h2 : env.tikapi = .error e)
    (h3 : cfg.officialCreds = false ∨ ∃ e2, env.official = .error e2) :
    fallback_get_user cfg env = (.error e, [Provider.managed])
    ∧ (api_search_user cfg env).1 =
        .httpError 500 ("Failed to fetch user: " ++ e.str)
    ∧ statusOf (api_search_user cfg env).1 = 500
    ∧ Provider.unofficial ∉ (api_search_user cfg env).2 := by
  have hfb : fallback_get_user cfg env = (.error e, [Provider.managed]) := by
    simp [fallback_get_user, h1, h2]
  have hsf : search_user_fallback_resp cfg env =
      (.httpError 500 ("Failed to fetch user: " ++ e.str),
       [Provider.managed]) := by
    simp [search_user_fallback_resp, hfb]
  rcases h3 with h3 | ⟨e2, he2⟩
  · rw [search_reduce_nocreds cfg env h3, hsf]
    exact ⟨hfb, rfl, rfl, by simp⟩
  · cases hoc : cfg.officialCreds
    · rw [search_reduce_nocreds cfg env hoc, hsf]
      exact ⟨hfb, rfl, rfl, by simp⟩
    · rw [search_reduce_fail cfg env e2 hoc he2, hsf]
      exact ⟨hfb, rfl, rfl, by simp⟩

/-- Claim C10, witness: the theorem evaluated with the managed key and
the unofficial opt-in flag both set and a timed-out managed call. -/
theorem claim_C10_managed_failure_propagates_witness :
    truthy managedAndUnofficialCfg.TIKAPI_KEY = true
    ∧ envManagedTimeout.tikapi = .error .timeout
    ∧ managedAndUnofficialCfg.USE_UNOFFICIAL = true
    ∧ Provider.unofficial ∉
        (api_search_user managedAndUnofficialCfg envManagedTimeout).2 :=
  ⟨by decide, rfl, by decide,
   (claim_C10_managed_failure_propagates managedAndUnofficialCfg
      envManagedTimeout .timeout (by decide) rfl (Or.inl (by decide))).2.2.2⟩

theorem fallback_traces_shape (cfg : Config) (env : Env) :
    ((search_user_fallback_resp cfg env).2).Sublist
      [Provider.managed, Provider.unofficial]
    ∧ ((video_stats_fallback_resp cfg env).2).Sublist
      [Provider.managed, Provider.unofficial]
    ∧ ((hashtags_fallback_resp cfg env).2).Sublist [Provider.managed]
    ∧ (truthy cfg.TIKAPI_KEY = true →
        Provider.unofficial ∉ (search_user_fallback_resp cfg env).2
        ∧ Provider.unofficial ∉ (video_stats_fallback_resp cfg env).2) := by
  cases hk : truthy cfg.TIKAPI_KEY <;> cases hu : cfg.USE_UNOFFICIAL <;>
    cases ht : env.tikapi <;> cases hun : env.unofficial <;>
      simp [search_user_fallback_resp, video_stats_fallback_resp,
            hashtags_fallback_resp, fallback_get_user, hk, hu, ht, hun]

/-- Claim C3, counterexample: for a trending-hashtags query with only
the unofficial opt-in flag set and an unofficial call that would
succeed, the endpoint answers the unavailable 503 without attempting
the unofficial provider at all. -/
theorem claim_C3_counterexample :
    trending_hashtags unofficialOnlyCfg envManagedOk =
      (.httpError 503
        "Trending hashtags service unavailable. Configure API keys or enable fallback.",
       [])
    ∧ Provider.unofficial ∉ (trending_hashtags unofficialOnlyCfg envManagedOk).2
    ∧ unofficialOnlyCfg.USE_UNOFFICIAL = true
    ∧ envManagedOk.unofficial = .ok "udata" :=
  ⟨rfl, by decide, by decide, rfl⟩

/-- Claim C3, amended: providers are consulted in the fixed order
official, managed, unofficial for user lookup and video stats, and
official, managed for trending hashtags, which never attempts the
unofficial provider; an official success short-circuits everything, and
a configured managed key means the unofficial provider is never
attempted for user lookup or video stats either (a managed failure
aborts the cascade rather than falling through). -/
theorem claim_C3_provider_order (cfg : Config) (env : Env) :
    ((api_search_user cfg env).2).Sublist
      [Provider.official, Provider.managed, Provider.unofficial]
    ∧ ((api_video_stats cfg env).2).Sublist
      [Provider.official, Provider.managed, Provider.unofficial]
    ∧ ((trending_hashtags cfg env).2).Sublist
      [Provider.official, Provider.managed]
    ∧ Provider.unofficial ∉ (trending_hashtags cfg env).2
    ∧ (∀ d, cfg.officialCreds = true → env.official = .ok d →
        api_search_user cfg env = (.ok "official" d, [Provider.official])
        ∧ api_video_stats cfg env = (.ok "official" d, [Provider.official])
        ∧ trending_hashtags cfg env = (.ok "official" d, [Provider.official]))
    ∧ (truthy cfg.TIKAPI_KEY = true →
        Provider.unofficial ∉ (api_search_user cfg env).2
        ∧ Provider.unofficial ∉ (api_video_stats cfg env).2) := by
  obtain ⟨hs, hv, hh, himp⟩ := fallback_traces_shape cfg env
  cases hoc : cfg.officialCreds
  · rw [search_reduce_nocreds cfg env hoc, video_reduce_nocreds cfg env hoc,
        hashtags_reduce_nocreds cfg env hoc]
    refine ⟨hs.trans (by decide), hv.trans (by decide), hh.trans (by decide),
            ?_, ?_, himp⟩
    · intro hmem
      exact absurd (hh.subset hmem) (by decide)
    · intro d hcontra
      exact absurd hcontra (by decide)
  · cases ho : env.official with
    | ok d0 =>
      rw [search_reduce_ok cfg env d0 hoc ho, video_reduce_ok cfg env d0 hoc ho,
          hashtags_reduce_ok cfg env d0 hoc ho]
      refine ⟨(by decide : ([Provider.official] : List Provider).Sublist
                [Provider.official, Provider.managed, Provider.unofficial]),
              (by decide : ([Provider.official] : List Provider).Sublist
                [Provider.official, Provider.managed, Provider.unofficial]),
              (by decide : ([Provider.official] : List Provider).Sublist
                [Provider.official, Provider.managed]),
              (by decide :
                Provider.unofficial ∉ ([Provider.official] : List Provider)),
              ?_, ?_⟩
      · intro d _ hod
        cases Except.ok.inj hod
        exact ⟨rfl, rfl, rfl⟩
      · intro _
        exact ⟨(by decide :
                  Provider.unofficial ∉ ([Provider.official] : List Provider)),
               (by decide :
                  Provider.unofficial ∉ ([Provider.official] : List Provider))⟩
    | error e =>
      rw [search_reduce_fail cfg env e hoc ho, video_reduce_fail cfg env e hoc ho,
          hashtags_reduce_fail cfg env e hoc ho]
      refine ⟨List.Sublist.cons₂ _ hs, List.Sublist.cons₂ _ hv,
              List.Sublist.cons₂ _ hh, ?_, ?_, ?_⟩
      · intro hmem
        rcases List.mem_cons.mp hmem with h | h
        · exact absurd h (by decide)
        · exact absurd (hh.subset h) (by decide)
      · intro d _ hod
        exact Except.noConfusion hod
      · intro hk
        obtain ⟨hks, hkv⟩ := himp hk
        constructor
        · intro hmem
          rcases List.mem_cons.mp hmem with h | h
          · exact absurd h (by decide)
          · exact absurd h hks
        · intro hmem
          rcases List.mem_cons.mp hmem with h | h
          · exact absurd h (by decide)
          · exact absurd h hkv

/-- Claim C3, witness: the order statement evaluated with only the
managed key configured. -/
theorem claim_C3_provider_order_witness :
    ((api_search_user managedOnlyCfg envManagedOk).2).Sublist
      [Provider.official, Provider.managed, Provider.unofficial] :=
  (claim_C3_provider_order managedOnlyCfg envManagedOk).1

/-- Claim C8, counterexample: with the managed key and the unofficial
flag set, a timed-out managed video-stats call is not followed by the
unofficial provider and does not become the explicit unavailable
result; the timeout exception escapes the handler unhandled. -/
theorem claim_C8_counterexample :
    api_video_stats managedAndUnofficialCfg envManagedTimeout =
      (.unhandled .timeout, [Provider.managed])
    ∧ Provider.unofficial ∉
        (api_video_stats managedAndUnofficialCfg envManagedTimeout).2
    ∧ (api_video_stats managedAndUnofficialCfg envManagedTimeout).1 ≠
        .ok "unofficial" "udata"
    ∧ (api_video_stats managedAndUnofficialCfg envManagedTimeout).1 ≠
        .httpError 500 "No data source available for video stats."
    ∧ statusOf (api_video_stats managedAndUnofficialCfg envManagedTimeout).1 = 500 :=
  ⟨rfl, by decide, by decide, by decide, rfl⟩

/-- Claim C8, amended: every outbound provider call in the source
carries the fixed timeout 20; an official call that times out is
swallowed and the cascade continues exactly as if the official provider
were unconfigured, but a managed call that times out escapes unhandled
for video stats and trending hashtags and becomes the generic 500 for
user search, without the unofficial provider being attempted. -/
theorem claim_C8_timeouts (cfg : Config) (env : Env) :
    (research_call_timeout = 20 ∧ fallback_user_managed_timeout = 20
      ∧ video_stats_managed_timeout = 20 ∧ hashtags_managed_timeout = 20)
    ∧ (cfg.officialCreds = true → env.official = .error .timeout →
        (api_search_user cfg env).1 = (api_search_user (stripOfficial cfg) env).1
        ∧ (api_video_stats cfg env).1 = (api_video_stats (stripOfficial cfg) env).1
        ∧ (trending_hashtags cfg env).1 =
            (trending_hashtags (stripOfficial cfg) env).1)
    ∧ (cfg.officialCreds = false → truthy cfg.TIKAPI_KEY = true →
        env.tikapi = .error .timeout →
        (api_video_stats cfg env).1 = .unhandled .timeout
        ∧ (trending_hashtags cfg env).1 = .unhandled .timeout
        ∧ (api_search_user cfg env).1 =
            .httpError 500 ("Failed to fetch user: " ++ Err.str .timeout)
        ∧ Provider.unofficial ∉ (api_video_stats cfg env).2
        ∧ Provider.unofficial ∉ (api_search_user cfg env).2) := by
  refine ⟨by decide, fun hoc ho => ?_, fun hoc hk ht => ?_⟩
  · rw [search_reduce_fail cfg env .timeout hoc ho,
        video_reduce_fail cfg env .timeout hoc ho,
        hashtags_reduce_fail cfg env .timeout hoc ho,
        search_reduce_nocreds (stripOfficial cfg) env (officialCreds_strip cfg),
        video_reduce_nocreds (stripOfficial cfg) env (officialCreds_strip cfg),
        hashtags_reduce_nocreds (stripOfficial cfg) env (officialCreds_strip cfg),
        strip_search_fallback, strip_video_fallback, strip_hashtags_fallback]
    exact ⟨rfl, rfl, rfl⟩
  · rw [video_reduce_nocreds cfg env hoc, hashtags_reduce_nocreds cfg env hoc,
        search_reduce_nocreds cfg env hoc]
    simp [video_stats_fallback_resp, hashtags_fallback_resp,
          search_user_fallback_resp, fallback_get_user, hk, ht, Err.str]

/-- Claim C8, witness: the managed-timeout clause evaluated with the
managed key and the unofficial flag configured. -/
theorem claim_C8_timeouts_witness :
    managedAndUnofficialCfg.officialCreds = false
    ∧ truthy managedAndUnofficialCfg.TIKAPI_KEY = true
    ∧ envManagedTimeout.tikapi = .error .timeout
    ∧ (api_video_stats managedAndUnofficialCfg envManagedTimeout).1 =
        .unhandled .timeout :=
  ⟨by decide, by decide, rfl,
   ((claim_C8_timeouts managedAndUnofficialCfg envManagedTimeout).2.2 (by decide)
      (by decide) rfl).1⟩

end TikIQ
